import Mathlib

/-!
Verification of the forecast-reduction logic of `src/app.py`
(socal2024/Betterweather).

The program is a Streamlit application.  The parts relevant to the
claims are:

* `build_clean_nws_json` (app.py:516-548): builds the "clean" JSON
  subset of the fetched NWS data that is handed to the downstream
  LLM-context step.  It is a pure transformation of the in-memory
  `nws_data` dictionary; we embed it at the level of the JSON value it
  constructs (the final `json.dumps` is a faithful serialization of
  that value, so structural statements about keys and sections are
  statements about the serialized artifact).
* the tomorrow-period filter loop (app.py:316-328): the only place in
  the program that parses timestamps; it keeps the forecast periods
  whose `startTime`, parsed with `datetime.fromisoformat`, falls on
  tomorrow's date, skipping any record whose timestamp fails to parse.
* `safe_get` (app.py:157-186): HTTP fetch helper with a bounded retry
  on server errors.

Python dictionaries are embedded as association lists with unique keys
in insertion order; `dict.get` is association-list lookup.  The live
clock (`datetime.now()`) is passed as an explicit parameter.
-/

/-- JSON-like values, the shape of the data held in
`st.session_state["nws_data"]` and produced by `build_clean_nws_json`.
Objects are association lists in insertion order (Python dicts). -/
inductive Json where
  | null : Json
  | str : String → Json
  | num : Int → Json
  | bool : Bool → Json
  | arr : List Json → Json
  | obj : List (String × Json) → Json

/-- Python `d[k]` / `d.get(k)` on a dict: first binding of `k`, if any;
on a non-dict value, `none` (in Python, indexing a non-dict raises, which
every call site of interest wraps in `try`/`except`). -/
def Json.get (j : Json) (k : String) : Option Json :=
  match j with
  | .obj kvs => kvs.lookup k
  | _ => none

/-- Python `d.get(k, default)`. -/
def Json.getD (j : Json) (k : String) (d : Json) : Json :=
  (j.get k).getD d

/-- The top-level key list of a JSON object (insertion order), i.e. the
key names that appear at top level when the value is serialized. -/
def Json.keys (j : Json) : List String :=
  match j with
  | .obj kvs => kvs.map Prod.fst
  | _ => []

/-- Replace (or insert) the binding of `k` in an object, leaving any
other value unchanged.  Used only to state independence results
("changing this field does not change that output"). -/
def setEntry (kvs : List (String × Json)) (k : String) (v : Json) :
    List (String × Json) :=
  match kvs with
  | [] => [(k, v)]
  | (k', v') :: rest =>
      if k' = k then (k, v) :: rest else (k', v') :: setEntry rest k v

/-- `Json.setKey j k v`: `j` with the binding of `k` replaced by `v`
(objects only). -/
def Json.setKey (j : Json) (k : String) (v : Json) : Json :=
  match j with
  | .obj kvs => .obj (setEntry kvs k v)
  | _ => j

/-- `build_clean_nws_json` (app.py:516-548), at the level of the JSON
value passed to `json.dumps`:

```python
raw = st.session_state.get("nws_data", {})
clean = {
    "metadata": raw.get("metadata", {}),
    "forecast": raw.get("forecast", {}),
    "forecastHourly": raw.get("forecast_hourly", raw.get("forecastHourly", {})),
    "forecastGridData": raw.get("forecast_grid_data", raw.get("forecastGridData", {})),
    "stations": raw.get("stations", {}),
    "gridInfo": {
        "office": raw.get("metadata", {}).get("gridId"),
        "gridX": raw.get("metadata", {}).get("gridX"),
        "gridY": raw.get("metadata", {}).get("gridY"),
    }
}
return json.dumps(clean, ensure_ascii=False)
```

The session-state read `raw = st.session_state.get("nws_data", {})` is
made explicit as the argument `raw`.  A `dict.get` miss on the
`gridInfo` sub-keys yields Python `None`, i.e. JSON `null`. -/
def build_clean_nws_json (raw : Json) : Json :=
  let metadata := raw.getD "metadata" (.obj [])
  .obj
    [ ("metadata", metadata),
      ("forecast", raw.getD "forecast" (.obj [])),
      ("forecastHourly",
        raw.getD "forecast_hourly" (raw.getD "forecastHourly" (.obj []))),
      ("forecastGridData",
        raw.getD "forecast_grid_data" (raw.getD "forecastGridData" (.obj []))),
      ("stations", raw.getD "stations" (.obj [])),
      ("gridInfo", .obj
        [ ("office", (metadata.get "gridId").getD .null),
          ("gridX", (metadata.get "gridX").getD .null),
          ("gridY", (metadata.get "gridY").getD .null) ]) ]

/-- The hourly (resp. daily) section stored in `nws_data` is the raw
NWS endpoint response `{"properties": {"periods": [...]}}`; this
extracts its period list (empty when the shape is absent). -/
def periodsOf (j : Json) : List Json :=
  match j.get "properties" with
  | some props =>
      match props.get "periods" with
      | some (.arr ps) => ps
      | _ => []
  | none => []

/-- The hourly section the raw input carries, after the
snake_case/camelCase resolution performed at app.py:532. -/
def rawHourlySection (raw : Json) : Json :=
  raw.getD "forecast_hourly" (raw.getD "forecastHourly" (.obj []))

/-- The grid-data section the raw input carries, after the
snake_case/camelCase resolution performed at app.py:535. -/
def rawGridSection (raw : Json) : Json :=
  raw.getD "forecast_grid_data" (raw.getD "forecastGridData" (.obj []))

/-- The hourly period records of the raw input. -/
def inputHourlyPeriods (raw : Json) : List Json :=
  periodsOf (rawHourlySection raw)

/-- The hourly period records of the reduced output: the periods of the
`"forecastHourly"` section of `build_clean_nws_json raw`. -/
def outputHourlyPeriods (raw : Json) : List Json :=
  periodsOf ((build_clean_nws_json raw).getD "forecastHourly" (.obj []))

/-- The daily (forecast) period records of the raw input. -/
def inputDailyPeriods (raw : Json) : List Json :=
  periodsOf (raw.getD "forecast" (.obj []))

/-- The daily period records of the reduced output. -/
def outputDailyPeriods (raw : Json) : List Json :=
  periodsOf ((build_clean_nws_json raw).getD "forecast" (.obj []))

/-- The key list of the grid section of the reduced output. -/
def outputGridKeys (raw : Json) : List String :=
  ((build_clean_nws_json raw).getD "forecastGridData" (.obj [])).keys

/-- The fixed 9-name variable allow-list named by the specification. -/
def gridAllowList : List String :=
  [ "temperature", "dewpoint", "relativeHumidity", "windSpeed",
    "windGust", "windDirection", "probabilityOfPrecipitation",
    "skyCover", "quantitativePrecipitation" ]

/-!
## Timestamps

The only timestamp parsing in the program is
`datetime.fromisoformat(p["startTime"])` at app.py:324.  We embed an
aware-or-naive `datetime` as explicit calendar fields plus an optional
UTC offset in minutes, and `fromisoformat` for the timestamp shapes the
NWS feed delivers: `YYYY-MM-DDTHH:MM:SS` followed by no offset, by `Z`,
or by `±HH:MM` (CPython ≥ 3.11 semantics; `Z` is accepted and means
`+00:00`).  Any other string — in particular anything containing a `/`,
such as the interval form `2025-01-17T06:00:00+00:00/PT1H` — fails to
parse, exactly as `fromisoformat` raises `ValueError` on it.
-/

/-- A parsed Python `datetime`: calendar fields plus an optional UTC
offset in minutes (`none` = naive). -/
structure PyDateTime where
  year : Nat
  month : Nat
  day : Nat
  hour : Nat
  minute : Nat
  second : Nat
  offset : Option Int
deriving DecidableEq, Repr

/-- Decimal digit value of a character, if it is one. -/
def toDigit (c : Char) : Option Nat :=
  if '0' ≤ c ∧ c ≤ '9' then some (c.toNat - 48) else none

/-- Parse the 19-character core `YYYY-MM-DDTHH:MM:SS` into
`(year, month, day, hour, minute, second)`; any other character list is
rejected. -/
def parseCore (cs : List Char) : Option (Nat × Nat × Nat × Nat × Nat × Nat) :=
  match cs with
  | [y1, y2, y3, y4, c1, m1, m2, c2, d1, d2, c3, h1, h2, c4, n1, n2, c5, s1, s2] =>
    if c1 = '-' ∧ c2 = '-' ∧ c3 = 'T' ∧ c4 = ':' ∧ c5 = ':' then
      match toDigit y1, toDigit y2, toDigit y3, toDigit y4,
            toDigit m1, toDigit m2, toDigit d1, toDigit d2,
            toDigit h1, toDigit h2, toDigit n1, toDigit n2,
            toDigit s1, toDigit s2 with
      | some a, some b, some c, some d, some e, some f, some g, some h,
        some i, some j, some k, some l, some m, some n =>
          some (a * 1000 + b * 100 + c * 10 + d, e * 10 + f, g * 10 + h,
                i * 10 + j, k * 10 + l, m * 10 + n)
      | _, _, _, _, _, _, _, _, _, _, _, _, _, _ => none
    else none
  | _ => none

/-- Parse the offset suffix: empty (naive), `Z` (UTC), or `±HH:MM`.
The result is the offset in minutes, `none` meaning naive.  CPython
rejects offsets of 24 hours or more. -/
def parseOffset (cs : List Char) : Option (Option Int) :=
  match cs with
  | [] => some none
  | ['Z'] => some (some 0)
  | [sgn, a, b, c, d, e] =>
    if c = ':' then
      match toDigit a, toDigit b, toDigit d, toDigit e with
      | some x, some y, some z, some w =>
        if x * 10 + y ≤ 23 ∧ z * 10 + w ≤ 59 then
          if sgn = '+' then some (some ((x * 10 + y) * 60 + (z * 10 + w) : Int))
          else if sgn = '-' then
            some (some (-((x * 10 + y) * 60 + (z * 10 + w) : Int)))
          else none
        else none
      | _, _, _, _ => none
    else none
  | _ => none

/-- Is `y` a Gregorian leap year? -/
def isLeap (y : Nat) : Bool :=
  (y % 4 = 0 ∧ y % 100 ≠ 0) ∨ y % 400 = 0

/-- Days in a month of year `y`. -/
def daysInMonth (y m : Nat) : Nat :=
  if m = 2 then (if isLeap y then 29 else 28)
  else if m = 4 ∨ m = 6 ∨ m = 9 ∨ m = 11 then 30
  else 31

/-- Field-range validation performed by the `datetime` constructor
(`fromisoformat` raises `ValueError` outside these ranges). -/
def validFields (y mo da h mi se : Nat) : Bool :=
  1 ≤ y ∧ y ≤ 9999 ∧ 1 ≤ mo ∧ mo ≤ 12 ∧ 1 ≤ da ∧ da ≤ daysInMonth y mo ∧
    h ≤ 23 ∧ mi ≤ 59 ∧ se ≤ 59

/-- `datetime.fromisoformat` on a character list: 19-character core,
then offset suffix, then range validation. -/
def fromisoformatList (cs : List Char) : Option PyDateTime :=
  match parseCore (cs.take 19), parseOffset (cs.drop 19) with
  | some (y, mo, da, h, mi, se), some off =>
      if validFields y mo da h mi se then some ⟨y, mo, da, h, mi, se, off⟩
      else none
  | _, _ => none

/-- `datetime.fromisoformat` (app.py:324): `some dt` when the string
parses, `none` when it raises. -/
def fromisoformat (s : String) : Option PyDateTime :=
  fromisoformatList s.toList

/-- `datetime.date()`: the wall-clock calendar date of the value, in
its own offset (no conversion). -/
def PyDateTime.date (dt : PyDateTime) : Nat × Nat × Nat :=
  (dt.year, dt.month, dt.day)

/-- Day count of a civil date from the era origin (standard
days-from-civil computation; well-defined for the validated range
`1 ≤ year ≤ 9999`). -/
def daysFromCivil (y m d : Nat) : Nat :=
  let y' := if m ≤ 2 then y - 1 else y
  let era := y' / 400
  let yoe := y' % 400
  let mp := if 2 < m then m - 3 else m + 9
  let doy := (153 * mp + 2) / 5 + d - 1
  let doe := yoe * 365 + yoe / 4 - yoe / 100 + doy
  era * 146097 + doe

/-- The absolute instant of an aware datetime as seconds on a common
timeline (naive values are placed at offset 0).  `astimezone` preserves
this value, so comparison of aware datetimes is comparison of these
numbers. -/
def pyUtcSeconds (dt : PyDateTime) : Int :=
  (daysFromCivil dt.year dt.month dt.day : Int) * 86400 +
    dt.hour * 3600 + dt.minute * 60 + dt.second - 60 * dt.offset.getD 0

/-!
## The tomorrow-period filter (app.py:316-328)

```python
tomorrow = (datetime.now()).date() + timedelta(days=1)
tomorrow_periods = []
for p in periods:
    try:
        start_date = datetime.fromisoformat(p["startTime"]).date()
        if start_date == tomorrow:
            tomorrow_periods.append(p)
    except Exception:
        pass
```

The ambient clock value `tomorrow` is passed explicitly.  A record is
skipped (the `except` branch) when `p["startTime"]` is missing, is not
a string, or fails `fromisoformat`.
-/

/-- Does the record carry a `startTime` string that `fromisoformat`
accepts?  `false` is exactly the condition under which the loop body
raises and the record is skipped. -/
def hasParseableStart (p : Json) : Bool :=
  match p.get "startTime" with
  | some (.str s) => (fromisoformat s).isSome
  | _ => false

/-- One iteration's decision: keep `p` iff its `startTime` parses and
its wall-clock date equals `tomorrow`. -/
def keepsForTomorrow (tomorrow : Nat × Nat × Nat) (p : Json) : Bool :=
  match p.get "startTime" with
  | some (.str s) =>
      match fromisoformat s with
      | some dt => dt.date = tomorrow
      | none => false
  | _ => false

/-- The tomorrow-period filter loop (app.py:320-328). -/
def tomorrow_periods (tomorrow : Nat × Nat × Nat) (periods : List Json) :
    List Json :=
  periods.filter (keepsForTomorrow tomorrow)

/-!
## `safe_get` (app.py:157-186)

```python
def safe_get(url, headers, debug=False, retries=1):
    diag = {"url": url}
    try:
        resp = requests.get(url, headers=headers, timeout=10)
        ...
        if resp.status_code >= 500 and retries > 0:
            return safe_get(url, headers, debug, retries - 1)
        if resp.status_code != 200:
            return None, diag
        try:
            data = resp.json()
            return data, diag
        except Exception:
            return None, diag
    except Exception as e:
        return None, diag
```

The network is embedded as an oracle mapping the index of each issued
request to its outcome: a raised exception (`requests.get` failing), or
a response with a status code and an optional decoded JSON body
(`none` = `resp.json()` raises).  `safe_get oracle k retries` returns
the data-or-`None` result together with the number of HTTP requests it
issued, starting from request index `k`; the diagnostics dictionary in
the pair the Python function returns carries no control flow and is
elided.  The function is a total Lean definition, which embeds the fact
that every path returns a pair rather than propagating an exception.
-/

/-- Outcome of one `requests.get`: the call raised, or a response
arrived with a status code and (when `resp.json()` succeeds) a body. -/
inductive HttpResult where
  | exn : HttpResult
  | response (status : Nat) (body : Option Json) : HttpResult

/-- The non-retry tail of `safe_get`: non-200 → `None`; 200 → the
decoded body, or `None` when decoding raises. -/
def handle_response (status : Nat) (body : Option Json) : Option Json × Nat :=
  if status ≠ 200 then (none, 1)
  else
    match body with
    | some data => (some data, 1)
    | none => (none, 1)

/-- `safe_get` over the oracle: result value and number of requests
issued (the recursion at app.py:168 decrements `retries`). -/
def safe_get (oracle : Nat → HttpResult) (k : Nat) : Nat → Option Json × Nat
  | 0 =>
    match oracle k with
    | .exn => (none, 1)
    | .response status body => handle_response status body
  | r + 1 =>
    match oracle k with
    | .exn => (none, 1)
    | .response status body =>
        if 500 ≤ status then
          let p := safe_get oracle (k + 1) r
          (p.1, p.2 + 1)
        else handle_response status body

/-!
## Specification-side definitions

These follow the wording of the specification, not the code; they exist
only to be compared with the embedded code above.
-/

/-- Modelled from the spec (§4.1 Time-Window Filter): keep an instant
iff, converted to the dataset's time zone, it is at or before `now`
plus `windowHours` hours.  `astimezone` preserves the instant, so the
comparison is between the underlying instants on the common timeline
regardless of the zone. -/
def specWithinWindow (instant now : Int) (windowHours : Nat) : Bool :=
  instant ≤ now + windowHours * 3600

/-- Modelled from the spec (§4.3 step 2, Hourly filter): keep each
hourly record whose `startTime` parses and whose instant lies within
the 72-hour forward window from `now`; drop records that fail to
parse. -/
def specHourlyFilter (now : Int) (periods : List Json) : List Json :=
  periods.filter fun p =>
    match p.get "startTime" with
    | some (.str s) =>
        match fromisoformat s with
        | some dt => specWithinWindow (pyUtcSeconds dt) now 72
        | none => false
    | _ => false

/-- Modelled from the spec (§4.2 Interval String Parser): if a `/` is
present, parse only the substring before it; otherwise parse the whole
string. -/
def specParseIntervalStart (s : String) : Option PyDateTime :=
  fromisoformatList (s.toList.takeWhile (fun c => c ≠ '/'))

/-- The instant of a record's `startTime`, when it parses. -/
def startInstant (p : Json) : Option Int :=
  match p.get "startTime" with
  | some (.str s) => (fromisoformat s).map pyUtcSeconds
  | _ => none

/-!
## Concrete sample inputs used by counterexamples and witnesses
-/

/-- An hourly record whose start lies far beyond any 72-hour window. -/
def hourlyRecordFar : Json := .obj [("startTime", .str "2999-01-17T06:00:00+00:00")]

/-- A raw dataset whose hourly section holds only `hourlyRecordFar`. -/
def rawFar : Json :=
  .obj [("forecast_hourly",
    .obj [("properties", .obj [("periods", .arr [hourlyRecordFar])])])]

/-- The instant `2025-01-17T10:00:00-08:00` (the reference time of the
specification's worked example). -/
def nowSample : Int := pyUtcSeconds ⟨2025, 1, 17, 10, 0, 0, some (-480)⟩

/-- The instant of `hourlyRecordFar`'s start. -/
def farInstant : Int := pyUtcSeconds ⟨2999, 1, 17, 6, 0, 0, some 0⟩

/-- An hourly record starting `2999-06-01T00:00:00Z`. -/
def hourlyRecordFar2 : Json := .obj [("startTime", .str "2999-06-01T00:00:00Z")]

/-- A raw dataset with no `metadata` (hence no time zone declaration)
whose hourly section holds only `hourlyRecordFar2`. -/
def rawNoTz : Json :=
  .obj [("forecast_hourly",
    .obj [("properties", .obj [("periods", .arr [hourlyRecordFar2])])])]

/-- The instant `2025-06-01T00:00:00+00:00`. -/
def nowSample2 : Int := pyUtcSeconds ⟨2025, 6, 1, 0, 0, 0, some 0⟩

/-- A raw dataset whose grid section holds an allow-listed variable and
`visibility`, which is outside the allow-list. -/
def rawGridSample : Json :=
  .obj [("forecast_grid_data",
    .obj [("temperature", .num 1), ("visibility", .num 2)])]

/-- A forecast period starting on 2025-01-18. -/
def goodPeriod : Json :=
  .obj [("startTime", .str "2025-01-18T06:00:00-08:00"), ("name", .str "Saturday")]

/-- A record whose `startTime` does not parse. -/
def badPeriod : Json := .obj [("startTime", .str "not-a-date")]

/-- A raw dataset that carries only the snake_case section spellings. -/
def rawSnake : Json :=
  .obj [("forecast_hourly", .num 7), ("forecast_grid_data", .num 8)]

/-- An oracle whose every response is `200` with body `1`. -/
def oracleOk : Nat → HttpResult := fun _ => .response 200 (some (.num 1))

/-!
## Helper lemmas
-/

/-- Lookup after replacing the binding of a different key is
unchanged. -/
theorem lookup_setEntry_ne (kvs : List (String × Json)) (k k' : String)
    (v : Json) (h : k ≠ k') :
    (setEntry kvs k v).lookup k' = kvs.lookup k' := by
  induction kvs with
  | nil =>
      simp only [setEntry, List.lookup]
      have : (k' == k) = false := beq_eq_false_iff_ne.2 (Ne.symm h)
      simp [this]
  | cons kv rest ih =>
      obtain ⟨k0, v0⟩ := kv
      simp only [setEntry]
      by_cases h0 : k0 = k
      · subst h0
        have : (k' == k0) = false := beq_eq_false_iff_ne.2 (Ne.symm h)
        simp [List.lookup, this]
      · simp only [h0, if_false, List.lookup, ih]

/-- `Json.get` at a key is unchanged by `Json.setKey` at another key. -/
theorem get_setKey_ne (j v : Json) (k k' : String) (h : k ≠ k') :
    (j.setKey k v).get k' = j.get k' := by
  cases j <;> simp [Json.setKey, Json.get]
  exact lookup_setEntry_ne _ _ _ _ h

/-- `handle_response` issues exactly one request's worth of work and
yields data only from a 200 response whose body decoded. -/
theorem handle_response_cases (status : Nat) (body : Option Json) :
    (handle_response status body).2 = 1 ∧
    ∀ d, (handle_response status body).1 = some d →
      status = 200 ∧ body = some d := by
  unfold handle_response
  by_cases h : status = 200
  · subst h
    cases body <;> simp
  · simp [h]

/-!
## Claims
-/

/-- C1 (counterexample): the claim "a record appears in the output's
hourly section iff its start instant is at most now + 72h" is false:
`hourlyRecordFar` starts in the year 2999, far beyond the 72-hour
window from `nowSample`, yet it appears in the reduced output's hourly
section, because `build_clean_nws_json` copies the hourly section
verbatim (app.py:532) and applies no time-window filter. -/
theorem C1_counterexample :
    outputHourlyPeriods rawFar = [hourlyRecordFar] ∧
    startInstant hourlyRecordFar = some farInstant ∧
    specWithinWindow farInstant nowSample 72 = false :=
  ⟨rfl, by decide, by decide⟩

/-- C1 (amended): the hourly section of the reduced output is the raw
hourly section copied verbatim — every raw hourly record appears in the
output's hourly section unconditionally; no 72-hour window is applied. -/
theorem C1_amended_hourly_copied_verbatim (raw : Json) :
    outputHourlyPeriods raw = inputHourlyPeriods raw ∧
    (build_clean_nws_json raw).get "forecastHourly" = some (rawHourlySection raw) :=
  ⟨rfl, rfl⟩

/-- C2 (counterexample): the claim "the output's grid section contains
no key outside the 9-name allow-list" is false: for `rawGridSample`,
whose grid section carries `visibility`, the output's grid section
still carries `visibility`, which is not in the allow-list —
app.py:535 copies the grid section verbatim with no key
restriction. -/
theorem C2_counterexample :
    outputGridKeys rawGridSample = ["temperature", "visibility"] ∧
    "visibility" ∉ gridAllowList :=
  ⟨rfl, by decide⟩

/-- C2 (amended): the grid section of the reduced output is the raw
grid section copied verbatim (after the snake_case/camelCase key
resolution): every key present in the raw grid section is retained —
allow-listed or not — and no absent key is synthesized. -/
theorem C2_amended_grid_copied_verbatim (raw : Json) :
    (build_clean_nws_json raw).get "forecastGridData" =
      some (rawGridSection raw) :=
  rfl

/-- C3 (confirmed): the daily (forecast) section of the reduced output
is the raw forecast section copied unfiltered, so its period list has
exactly the input's length and order; and the output's hourly period
list is an order-preserving subsequence of the input's (here in fact
the whole list). -/
theorem C3_no_reordering (raw : Json) :
    outputDailyPeriods raw = inputDailyPeriods raw ∧
    (build_clean_nws_json raw).get "forecast" =
      some (raw.getD "forecast" (.obj [])) ∧
    List.Sublist (outputHourlyPeriods raw) (inputHourlyPeriods raw) :=
  ⟨rfl, rfl, List.Sublist.refl _⟩

/-- C4 (confirmed): a raw input missing any of the expected top-level
sections still reduces, with the missing section appearing in the
output as the empty object — `build_clean_nws_json` reads every section
with `dict.get` and a `{}` default (app.py:525-548), and it is a total
function, so no error propagates past its return value. -/
theorem C4_missing_sections_empty (raw : Json)
    (h1 : raw.get "forecast" = none)
    (h2 : raw.get "forecast_hourly" = none)
    (h3 : raw.get "forecastHourly" = none)
    (h4 : raw.get "forecast_grid_data" = none)
    (h5 : raw.get "forecastGridData" = none) :
    (build_clean_nws_json raw).get "forecast" = some (.obj []) ∧
    (build_clean_nws_json raw).get "forecastHourly" = some (.obj []) ∧
    (build_clean_nws_json raw).get "forecastGridData" = some (.obj []) := by
  refine ⟨?_, ?_, ?_⟩
  · have h : (build_clean_nws_json raw).get "forecast" =
        some (raw.getD "forecast" (.obj [])) := rfl
    rw [h]; simp [Json.getD, h1]
  · have h : (build_clean_nws_json raw).get "forecastHourly" =
        some (rawHourlySection raw) := rfl
    rw [h]; simp [rawHourlySection, Json.getD, h2, h3]
  · have h : (build_clean_nws_json raw).get "forecastGridData" =
        some (rawGridSection raw) := rfl
    rw [h]; simp [rawGridSection, Json.getD, h4, h5]

/-- C4 witness: the empty raw input reduces to empty sections. -/
theorem C4_missing_sections_empty_witness :
    (build_clean_nws_json (.obj [])).get "forecast" = some (.obj []) ∧
    (build_clean_nws_json (.obj [])).get "forecastHourly" = some (.obj []) ∧
    (build_clean_nws_json (.obj [])).get "forecastGridData" = some (.obj []) :=
  C4_missing_sections_empty (.obj []) rfl rfl rfl rfl rfl

/-- C5 (confirmed): a record whose timestamp does not parse is dropped
by the tomorrow-period filter without aborting — the loop's
`try`/`except` skips exactly that record (app.py:321-328), and the
result on the remaining records is the same as if the malformed record
had been absent.  (`tomorrow_periods` is a total function: no record
can raise past it.) -/
theorem C5_malformed_record_skipped (t : Nat × Nat × Nat)
    (xs ys : List Json) (bad : Json) (h : hasParseableStart bad = false) :
    tomorrow_periods t (xs ++ bad :: ys) = tomorrow_periods t (xs ++ ys) := by
  have hb : keepsForTomorrow t bad = false := by
    unfold hasParseableStart at h
    unfold keepsForTomorrow
    cases hg : bad.get "startTime" with
    | none => rfl
    | some j =>
        cases j <;> simp only [hg] at h ⊢
        cases hf : fromisoformat _ with
        | none => rfl
        | some dt => rw [hf] at h; simp at h
  unfold tomorrow_periods
  simp [List.filter_append, List.filter_cons, hb]

/-- C5 witness: a record with `startTime = "not-a-date"` between two
well-formed records is dropped and the rest are processed as if it were
absent. -/
theorem C5_malformed_record_skipped_witness :
    hasParseableStart badPeriod = false ∧
    tomorrow_periods (2025, 1, 18) [goodPeriod, badPeriod, goodPeriod] =
      tomorrow_periods (2025, 1, 18) [goodPeriod, goodPeriod] :=
  ⟨by decide,
   C5_malformed_record_skipped (2025, 1, 18) [goodPeriod] [goodPeriod]
     badPeriod (by decide)⟩

/-- C6 (counterexample): the claim "hourly and grid filtering uses the
dataset's time zone, with a UTC fallback" is false: `rawNoTz` declares
no time zone, so the claimed behavior filters its hourly records
against the 72-hour UTC window from `nowSample2` and excludes the
year-2999 record — but the actual output retains it, because no
time-zone-based filtering exists in `build_clean_nws_json`. -/
theorem C6_counterexample :
    specHourlyFilter nowSample2 (inputHourlyPeriods rawNoTz) = [] ∧
    outputHourlyPeriods rawNoTz = [hourlyRecordFar2] := by
  exact ⟨rfl, rfl⟩

/-- C6 (amended): no time zone is consulted anywhere in the reduction:
the hourly and grid sections are copied without any time-based
filtering, and the outputs of those sections are unchanged under any
replacement of the raw `metadata` object (which is where the NWS
payload carries `timeZone`) — so an absent or unresolvable time zone
can neither change the hourly/grid output nor make the reduction fail
(`build_clean_nws_json` is total). -/
theorem C6_amended_timezone_never_read (raw v : Json) :
    outputHourlyPeriods (raw.setKey "metadata" v) = outputHourlyPeriods raw ∧
    (build_clean_nws_json (raw.setKey "metadata" v)).get "forecastGridData" =
      (build_clean_nws_json raw).get "forecastGridData" ∧
    outputHourlyPeriods raw = inputHourlyPeriods raw := by
  have hh : rawHourlySection (raw.setKey "metadata" v) = rawHourlySection raw := by
    unfold rawHourlySection Json.getD
    rw [get_setKey_ne _ _ _ _ (by decide), get_setKey_ne _ _ _ _ (by decide)]
  have hg : rawGridSection (raw.setKey "metadata" v) = rawGridSection raw := by
    unfold rawGridSection Json.getD
    rw [get_setKey_ne _ _ _ _ (by decide), get_setKey_ne _ _ _ _ (by decide)]
  refine ⟨?_, ?_, rfl⟩
  · show periodsOf (rawHourlySection (raw.setKey "metadata" v)) =
      periodsOf (rawHourlySection raw)
    rw [hh]
  · show some (rawGridSection (raw.setKey "metadata" v)) =
      some (rawGridSection raw)
    rw [hg]

/-- C7 (counterexample): the claim "for a string containing `/`, the
parser returns the instant parsed from the substring before the `/`"
is false: on `2025-01-17T06:00:00+00:00/PT1H` the claimed behavior
yields the instant `2025-01-17T06:00:00+00:00`, but the code passes the
whole string to `datetime.fromisoformat` (app.py:324), which rejects
it. -/
theorem C7_counterexample :
    specParseIntervalStart "2025-01-17T06:00:00+00:00/PT1H" =
      some ⟨2025, 1, 17, 6, 0, 0, some 0⟩ ∧
    fromisoformat "2025-01-17T06:00:00+00:00/PT1H" = none := by
  decide

/-- C7 (amended): the parser applies `fromisoformat` to the whole
string, with no `/` splitting: an interval-form string containing `/`
fails to parse (and its record is skipped by the caller's
`try`/`except`); plain ISO-8601 instants with explicit numeric offsets
parse, and a trailing `Z` is accepted and treated identically to
`+00:00`. -/
theorem C7_amended_whole_string_parsed :
    (∀ core : List Char, core.length = 19 →
      fromisoformatList (core ++ ['Z']) =
        fromisoformatList (core ++ ['+', '0', '0', ':', '0', '0'])) ∧
    fromisoformat "2025-01-17T06:00:00+00:00/PT1H" = none ∧
    fromisoformat "2025-01-17T06:00:00+00:00" =
      some ⟨2025, 1, 17, 6, 0, 0, some 0⟩ ∧
    fromisoformat "2025-01-17T06:00:00-08:00" =
      some ⟨2025, 1, 17, 6, 0, 0, some (-480)⟩ := by
  refine ⟨?_, by decide, by decide, by decide⟩
  intro core h
  unfold fromisoformatList
  have ht : ∀ l : List Char, (core ++ l).take 19 = core := by
    intro l
    rw [List.take_append_eq_append_take]
    rw [h, List.take_of_length_le (by omega)]
    simp
  have hd : ∀ l : List Char, (core ++ l).drop 19 = l := by
    intro l
    rw [List.drop_append_eq_append_drop]
    rw [h, List.drop_of_length_le (by omega)]
    simp
  rw [ht, ht, hd, hd]
  have hoff : parseOffset ['+', '0', '0', ':', '0', '0'] = parseOffset ['Z'] := by
    decide
  rw [hoff]

/-- C7 witness: the `Z`/`+00:00` equivalence at a concrete core. -/
theorem C7_amended_whole_string_parsed_witness :
    fromisoformatList ("2025-01-17T06:00:00".toList ++ ['Z']) =
      fromisoformatList ("2025-01-17T06:00:00".toList ++ ['+', '0', '0', ':', '0', '0']) :=
  C7_amended_whole_string_parsed.1 _ (by decide)

/-- C8 (counterexample): the claim that the reduced artifact has
top-level shape `{"daily": [...], "hourly": [...], "grid": {...}}`
is false: `build_clean_nws_json` emits the keys `metadata, forecast,
forecastHourly, forecastGridData, stations, gridInfo`; `daily` is not
among them. -/
theorem C8_counterexample :
    (build_clean_nws_json (.obj [])).keys ≠ ["daily", "hourly", "grid"] ∧
    "daily" ∉ (build_clean_nws_json (.obj [])).keys := by
  decide

/-- C8 (amended): the reduced artifact serializes with exactly the
top-level keys `metadata, forecast, forecastHourly, forecastGridData,
stations, gridInfo`, in that order, for every raw input; the grid-data
value is the raw section in full, not a 9-key subset. -/
theorem C8_amended_output_shape (raw : Json) :
    (build_clean_nws_json raw).keys =
      ["metadata", "forecast", "forecastHourly", "forecastGridData",
       "stations", "gridInfo"] ∧
    (build_clean_nws_json raw).get "forecastGridData" =
      some (rawGridSection raw) :=
  ⟨rfl, rfl⟩

/-- C9 (confirmed): deserialization accepts both the snake_case and the
camelCase spelling of the hourly and grid-data sections (snake_case
taking priority, app.py:532 and 535), and the output carries each
section under a single canonical name — `forecastHourly` /
`forecastGridData` appear exactly once and the snake_case spellings
never appear. -/
theorem C9_key_spelling_resolution (raw v : Json) :
    (raw.get "forecast_hourly" = some v →
      (build_clean_nws_json raw).get "forecastHourly" = some v) ∧
    (raw.get "forecast_hourly" = none → raw.get "forecastHourly" = some v →
      (build_clean_nws_json raw).get "forecastHourly" = some v) ∧
    (raw.get "forecast_grid_data" = some v →
      (build_clean_nws_json raw).get "forecastGridData" = some v) ∧
    (raw.get "forecast_grid_data" = none → raw.get "forecastGridData" = some v →
      (build_clean_nws_json raw).get "forecastGridData" = some v) ∧
    "forecast_hourly" ∉ (build_clean_nws_json raw).keys ∧
    "forecast_grid_data" ∉ (build_clean_nws_json raw).keys ∧
    (build_clean_nws_json raw).keys.count "forecastHourly" = 1 ∧
    (build_clean_nws_json raw).keys.count "forecastGridData" = 1 := by
  have hk : (build_clean_nws_json raw).keys =
      ["metadata", "forecast", "forecastHourly", "forecastGridData",
       "stations", "gridInfo"] := rfl
  have hh : (build_clean_nws_json raw).get "forecastHourly" =
      some (rawHourlySection raw) := rfl
  have hg : (build_clean_nws_json raw).get "forecastGridData" =
      some (rawGridSection raw) := rfl
  refine ⟨?_, ?_, ?_, ?_, ?_, ?_, ?_, ?_⟩
  · intro h1
    rw [hh]; unfold rawHourlySection Json.getD; rw [h1]; rfl
  · intro h1 h2
    rw [hh]; unfold rawHourlySection Json.getD; rw [h1, h2]; rfl
  · intro h1
    rw [hg]; unfold rawGridSection Json.getD; rw [h1]; rfl
  · intro h1 h2
    rw [hg]; unfold rawGridSection Json.getD; rw [h1, h2]; rfl
  · rw [hk]; decide
  · rw [hk]; decide
  · rw [hk]; decide
  · rw [hk]; decide

/-- C9 witness: a raw input carrying only the snake_case spellings is
propagated under the canonical camelCase names only. -/
theorem C9_key_spelling_resolution_witness :
    (build_clean_nws_json rawSnake).get "forecastHourly" = some (.num 7) ∧
    (build_clean_nws_json rawSnake).get "forecastGridData" = some (.num 8) ∧
    "forecast_hourly" ∉ (build_clean_nws_json rawSnake).keys :=
  ⟨(C9_key_spelling_resolution rawSnake (.num 7)).1 rfl,
   (C9_key_spelling_resolution rawSnake (.num 8)).2.2.1 rfl,
   (C9_key_spelling_resolution rawSnake (.num 7)).2.2.2.2.1⟩

/-- C10 (confirmed): `safe_get` terminates for every oracle and
non-negative retry budget (it is a total function, embedding that every
path returns a pair rather than raising); it issues at least one and at
most `retries + 1` HTTP requests, because each retry on a status of 500
or greater decrements the budget; and it yields data only when the
final request's response had status 200 and its body decoded — every
other path yields `none`. -/
theorem C10_safe_get_bounded (oracle : Nat → HttpResult) (k retries : Nat) :
    1 ≤ (safe_get oracle k retries).2 ∧
    (safe_get oracle k retries).2 ≤ retries + 1 ∧
    ∀ d, (safe_get oracle k retries).1 = some d →
      oracle (k + ((safe_get oracle k retries).2 - 1)) =
        HttpResult.response 200 (some d) := by
  induction retries generalizing k with
  | zero =>
      cases ho : oracle k with
      | exn => simp [safe_get, ho]
      | response status body =>
          obtain ⟨hr1, hr2⟩ := handle_response_cases status body
          refine ⟨?_, ?_, ?_⟩
          · simp [safe_get, ho, hr1]
          · simp [safe_get, ho, hr1]
          · intro d hd
            simp only [safe_get, ho] at hd ⊢
            obtain ⟨h200, hbody⟩ := hr2 d hd
            rw [hr1]
            simpa [h200, hbody] using ho
  | succ r ih =>
      cases ho : oracle k with
      | exn => simp [safe_get, ho]
      | response status body =>
          by_cases hst : 500 ≤ status
          · obtain ⟨ih1, ih2, ih3⟩ := ih (k + 1)
            refine ⟨?_, ?_, ?_⟩
            · simp [safe_get, ho, hst]
            · simp only [safe_get, ho, hst, if_true]
              omega
            · intro d hd
              simp only [safe_get, ho, hst, if_true] at hd ⊢
              have := ih3 d hd
              have harith : k + 1 + ((safe_get oracle (k + 1) r).2 - 1) =
                  k + ((safe_get oracle (k + 1) r).2 + 1 - 1) := by omega
              rwa [harith] at this
          · obtain ⟨hr1, hr2⟩ := handle_response_cases status body
            refine ⟨?_, ?_, ?_⟩
            · simp [safe_get, ho, hst, hr1]
            · simp [safe_get, ho, hst, hr1]
            · intro d hd
              simp only [safe_get, ho, hst, if_false] at hd ⊢
              obtain ⟨h200, hbody⟩ := hr2 d hd
              rw [hr1]
              simpa [h200, hbody] using ho

/-- C10 witness: with an oracle answering 200 and body `1`, one request
is issued, within the budget, and it is the one that supplied the
data. -/
theorem C10_safe_get_bounded_witness :
    (safe_get oracleOk 0 1).2 ≤ 2 ∧
    oracleOk (0 + ((safe_get oracleOk 0 1).2 - 1)) =
      HttpResult.response 200 (some (.num 1)) :=
  ⟨(C10_safe_get_bounded oracleOk 0 1).2.1,
   (C10_safe_get_bounded oracleOk 0 1).2.2 (.num 1) rfl⟩
